import Mathlib

/-!
The mount command of svfs: a shallow embedding of `cmd/mount.go`.

The package-level variables that `cmd/mount.go` reads and writes are gathered in
one record, `Globals`, which every function receives and returns explicitly.
Machine integers are natural numbers reduced modulo `2 ^ width`; Go's `uint` has
a platform-dependent width (32 or 64), passed as the parameter `w`.

The calls that leave the process (`fuse.Mount`, `fs.Init`, `srv.Serve`,
`os.Create`, ...) are answered by an oracle, `World`, and recorded in a trace of
`Event`s.  `Run` has two goroutines: `mainGoroutine` is the one that executes
the body of `Run`; the one started for `--profile-bind` ends the process when its
listener fails, at a point of the main goroutine's trace that the oracle gives.
-/

namespace Svfs

/-- Go `error` values are identified with their message. -/
abbrev Error := String

/-- The values `fuse.MountOption` takes in `mountOptions`, one constructor per
option builder of `bazil.org/fuse` that the function calls. -/
inductive MountOption where
  | AllowOther
  | AllowRoot
  | DefaultPermissions
  | ReadOnly
  | MaxReadahead (n : Nat)
  | Subtype (s : String)
  | FSName (s : String)
  deriving DecidableEq, Repr

/-- Package-level variables of `cmd` and `svfs` used by the mount command.  The
ten credential strings are the variables the flags of `setFlags` write to. -/
structure Globals where
  configError : Option Error
  debug : Bool
  profAddr : String
  cpuProf : String
  memProf : String
  device : String
  mountpoint : String
  AuthUrl : String
  AuthToken : String
  UserName : String
  ApiKey : String
  Domain : String
  Region : String
  StorageUrl : String
  Tenant : String
  HubicAuthorization : String
  HubicRefreshToken : String
  SegmentSize : Nat
  ReadAheadSize : Nat
  AllowRoot : Bool
  AllowOther : Bool
  DefaultPermissions : Bool
  ReadOnly : Bool
  deriving DecidableEq, Repr

/-- The flag defaults registered by `setFlags` (lines 157-210), with no
configuration load error. -/
def setFlags : Globals where
  configError := none
  debug := false
  profAddr := ""
  cpuProf := ""
  memProf := ""
  device := ""
  mountpoint := ""
  AuthUrl := "https://auth.cloud.ovh.net/v2.0"
  AuthToken := ""
  UserName := ""
  ApiKey := ""
  Domain := ""
  Region := ""
  StorageUrl := ""
  Tenant := ""
  HubicAuthorization := ""
  HubicRefreshToken := ""
  SegmentSize := 256
  ReadAheadSize := 128
  AllowRoot := false
  AllowOther := true
  DefaultPermissions := true
  ReadOnly := false

/-- Go `append(options, o)` when `b` holds, `options` otherwise. -/
def appendIf (b : Bool) (options : List MountOption) (o : MountOption) : List MountOption :=
  if b then options ++ [o] else options

/-- `mountOptions` (lines 227-246): four conditional appends, then three
unconditional ones; `uint32(svfs.ReadAheadSize)` keeps the low 32 bits. -/
def mountOptions (g : Globals) (device : String) : List MountOption :=
  let options : List MountOption := []
  let options := appendIf g.AllowOther options MountOption.AllowOther
  let options := appendIf g.AllowRoot options MountOption.AllowRoot
  let options := appendIf g.DefaultPermissions options MountOption.DefaultPermissions
  let options := appendIf g.ReadOnly options MountOption.ReadOnly
  let options := options ++ [MountOption.MaxReadahead (g.ReadAheadSize % 2 ^ 32)]
  let options := options ++ [MountOption.Subtype "svfs"]
  let options := options ++ [MountOption.FSName device]
  options

/-- `checkOptions` (lines 248-258): both sizes are multiplied in place, in
`uint64` and in `uint` (width `w`) arithmetic, then the segment size is compared
with `5 * (1 << 30)`. -/
def checkOptions (w : Nat) (g : Globals) : Globals × Option Error :=
  let g := { g with SegmentSize := (g.SegmentSize * 2 ^ 20) % 2 ^ 64 }
  let g := { g with ReadAheadSize := (g.ReadAheadSize * 2 ^ 10) % 2 ^ w }
  if g.SegmentSize > 5 * 2 ^ 30 then
    (g, some "Segment size can't exceed 5 GiB")
  else
    (g, none)

/-- Modelled from the spec: the lookup `viper.GetString` performs (library code
outside `src/`), as section 6 words it: a key is "consulted only when the
corresponding CLI flag is unset".  `changed` tells, per flag name, whether the
flag was given on the command line; `lower` is what the configuration file and
the environment hold for a key. -/
structure Viper where
  changed : String → Bool
  lower : String → Option String

/-- The bindings `viper.BindPFlag(key, Lookup(flag))` of `setFlags`
(lines 215-224): the flag bound to each key. -/
def BindPFlag (key : String) : Option String :=
  if key = "os_auth_url" then some "os-auth-url"
  else if key = "os_username" then some "os-username"
  else if key = "os_password" then some "os-password"
  else if key = "os_tenant_name" then some "os-tenant-name"
  else if key = "os_domain_name" then some "os-domain-name"
  else if key = "os_region_name" then some "os-region-name"
  else if key = "os_auth_token" then some "os-auth-token"
  else if key = "os_storage_url" then some "os-storage-url"
  else if key = "hubic_auth" then some "hubic-authorization"
  else if key = "hubic_token" then some "hubic-refresh-token"
  else none

/-- The variable each string flag was registered on by `flags.StringVar`
(lines 157-177): reading the flag reads the variable. -/
def flagValue (g : Globals) (flag : String) : String :=
  if flag = "os-auth-url" then g.AuthUrl
  else if flag = "os-auth-token" then g.AuthToken
  else if flag = "os-username" then g.UserName
  else if flag = "os-password" then g.ApiKey
  else if flag = "os-domain-name" then g.Domain
  else if flag = "os-region-name" then g.Region
  else if flag = "os-storage-url" then g.StorageUrl
  else if flag = "os-tenant-name" then g.Tenant
  else if flag = "hubic-authorization" then g.HubicAuthorization
  else if flag = "hubic-refresh-token" then g.HubicRefreshToken
  else ""

/-- Modelled from the spec: `viper.GetString(key)` (library code outside `src/`).
A flag given on the command line wins; otherwise the configuration-file or
environment value of the key is taken; otherwise the flag's own (default) value. -/
def GetString (v : Viper) (g : Globals) (key : String) : String :=
  match BindPFlag key with
  | some flag =>
    if v.changed flag then flagValue g flag
    else
      match v.lower key with
      | some u => u
      | none => flagValue g flag
  | none =>
    match v.lower key with
    | some u => u
    | none => ""

/-- `useConfiguration` (lines 287-300): ten assignments, in source order. -/
def useConfiguration (v : Viper) (g : Globals) : Globals :=
  let g := { g with HubicAuthorization := GetString v g "hubic_auth" }
  let g := { g with HubicRefreshToken := GetString v g "hubic_token" }
  let g := { g with AuthToken := GetString v g "os_auth_token" }
  let g := { g with StorageUrl := GetString v g "os_storage_url" }
  let g := { g with AuthUrl := GetString v g "os_auth_url" }
  let g := { g with Tenant := GetString v g "os_tenant_name" }
  let g := { g with UserName := GetString v g "os_username" }
  let g := { g with ApiKey := GetString v g "os_password" }
  let g := { g with Domain := GetString v g "os_domain_name" }
  let g := { g with Region := GetString v g "os_region_name" }
  g

/-- What the mount command does that is visible outside the process, one
constructor per call made by `Run` and its helpers. -/
inductive Event where
  | setDebug
  | setMountTime
  | skipConfiguration (e : Error)
  | markRequired (flag : String)
  | goListenAndServe (addr : String)
  | osCreate (path : String)
  | startCPUProfile
  | stopCPUProfile
  | checkOptions
  | fuseMount (mountpoint : String) (options : List MountOption)
  | connClose
  | fsInit
  | srvServe
  | connReady
  | writeHeapProfile
  | fileClose
  | fuseUnmount (mountpoint : String)
  | fatal (e : Error)
  deriving DecidableEq, Repr

/-- How `Run` ends: it returns, or `logrus.Fatal` ends the process. -/
inductive Exit where
  | returned
  | fatal (e : Error)
  deriving DecidableEq, Repr

/-- The answers of the collaborators: `nil` is `none`.  `listen` answers for
`http.ListenAndServe` in the goroutine of lines 96-100: `none` when it does not
return while the process lives, `some (n, err)` when it returns the error `err`
after the main goroutine has made `n` more calls since starting it. -/
structure World where
  viper : Viper
  cpuCreate : Option Error
  memCreate : Option Error
  mount : Option Error
  init : Option Error
  serve : Option Error
  mountError : Option Error
  unmount : Option Error
  listen : Option (Nat × Error)

/-- The result of one run: the calls made, in order, how it ended, and the
package-level variables at that point. -/
structure Outcome where
  trace : List Event
  exit : Exit
  globals : Globals
  deriving DecidableEq, Repr

/-- The label `Err` of `Run` (lines 147-149): `fuse.Unmount(mountpoint)`, whose
result is dropped, then `logrus.Fatal(err)`, which exits without running the
deferred calls. -/
def errLabel (g : Globals) (t : List Event) (err : Error) : Outcome :=
  { trace := t ++ [Event.fuseUnmount g.mountpoint, Event.fatal err]
    exit := Exit.fatal err
    globals := g }

/-- The end of `Run` (lines 141-145): the check of `c.MountError`, then `return`,
on which the deferred calls run, last registered first. -/
def checkMountError (env : World) (g : Globals) (t : List Event)
    (deferred : List Event) : Outcome :=
  match env.mountError with
  | some err => errLabel g t err
  | none => { trace := t ++ deferred, exit := Exit.returned, globals := g }

/-- `Run` from `checkOptions` on (lines 109-150).  `deferred` holds the calls
deferred so far, last registered first. -/
def mountSVFS (w : Nat) (env : World) (g : Globals) (t : List Event)
    (deferred : List Event) : Outcome :=
  let r := checkOptions w g
  let g := r.1
  let t := t ++ [Event.checkOptions]
  match r.2 with
  | some err => { trace := t ++ [Event.fatal err], exit := Exit.fatal err, globals := g }
  | none =>
    let t := t ++ [Event.fuseMount g.mountpoint (mountOptions g g.device)]
    match env.mount with
    | some err => errLabel g t err
    | none =>
      let deferred := Event.connClose :: deferred
      let t := t ++ [Event.fsInit]
      match env.init with
      | some err => errLabel g t err
      | none =>
        let t := t ++ [Event.srvServe]
        match env.serve with
        | some err => errLabel g t err
        | none =>
          let t := t ++ [Event.connReady]
          if g.memProf ≠ "" then
            match env.memCreate with
            | some err =>
              { trace := t ++ [Event.osCreate g.memProf, Event.fatal err]
                exit := Exit.fatal err
                globals := g }
            | none =>
              checkMountError env g
                (t ++ [Event.osCreate g.memProf, Event.writeHeapProfile, Event.fileClose])
                deferred
          else
            checkMountError env g t deferred

/-- The calls `Run` makes before CPU profiling (lines 72-101), in order; the
last one, when `--profile-bind` is given, starts the listener goroutine. -/
def startupTrace (g : Globals) : List Event :=
  (if g.debug then [Event.setDebug] else []) ++ [Event.setMountTime] ++
    (match g.configError with
      | some e => [Event.skipConfiguration e]
      | none => []) ++
    [Event.markRequired "device", Event.markRequired "mountpoint"] ++
    (if g.profAddr ≠ "" then [Event.goListenAndServe g.profAddr] else [])

/-- The goroutine that executes the body of `Run` (lines 70-150), left to itself:
the `go` statement of lines 96-100 is the call that starts the other goroutine. -/
def mainGoroutine (w : Nat) (env : World) (g : Globals) : Outcome :=
  let t : List Event := []
  let t := if g.debug then t ++ [Event.setDebug] else t
  let t := t ++ [Event.setMountTime]
  let t :=
    match g.configError with
    | some e => t ++ [Event.skipConfiguration e]
    | none => t
  let t := t ++ [Event.markRequired "device", Event.markRequired "mountpoint"]
  let g := useConfiguration env.viper g
  let t := if g.profAddr ≠ "" then t ++ [Event.goListenAndServe g.profAddr] else t
  if g.cpuProf ≠ "" then
    match env.cpuCreate with
    | some err =>
      { trace := t ++ [Event.osCreate g.cpuProf, Event.fatal err]
        exit := Exit.fatal err
        globals := g }
    | none =>
      mountSVFS w env g (t ++ [Event.osCreate g.cpuProf, Event.startCPUProfile])
        [Event.stopCPUProfile]
  else
    mountSVFS w env g t []

/-- The number of points at which another goroutine can still end the process:
before each call of the trace, and also after the last one when the run returns
(after `logrus.Fatal` the process is gone). -/
def Outcome.points (o : Outcome) : Nat :=
  match o.exit with
  | Exit.returned => o.trace.length + 1
  | Exit.fatal _ => o.trace.length

/-- The function `Run` of `mountCmd` (lines 70-150), with both goroutines.  The
main goroutine makes the calls of `mainGoroutine`.  With `--profile-bind`, the
goroutine of lines 96-100 runs beside it: when `http.ListenAndServe` returns
`err` after `n` more calls of the main goroutine and the process still lives,
`logrus.Fatal(err)` ends it there; the calls that remained, deferred ones
included, are not made, and `checkOptions` has changed the variables only if it
was called. -/
def Run (w : Nat) (env : World) (g : Globals) : Outcome :=
  let o := mainGoroutine w env g
  if g.profAddr ≠ "" then
    match env.listen with
    | some (n, err) =>
      let k := (startupTrace g).length + n
      if k < o.points then
        { trace := o.trace.take k ++ [Event.fatal err]
          exit := Exit.fatal err
          globals :=
            if Event.checkOptions ∈ o.trace.take k then o.globals
            else useConfiguration env.viper g }
      else o
    | none => o
  else o

/-- A command line that sets no credential flag, with nothing in the
configuration file or the environment. -/
def noViper : Viper where
  changed := fun _ => false
  lower := fun _ => none

/-- A world in which every collaborator succeeds. -/
def quietWorld : World where
  viper := noViper
  cpuCreate := none
  memCreate := none
  mount := none
  init := none
  serve := none
  mountError := none
  unmount := none
  listen := none

/-- Is the event a call to `fuse.Unmount`? -/
def Event.isUnmount : Event → Bool
  | Event.fuseUnmount _ => true
  | _ => false

/-- Is the event a call to `fuse.Mount`? -/
def Event.isMount : Event → Bool
  | Event.fuseMount _ _ => true
  | _ => false

/-- Is the event one of the mount-lifecycle calls: `checkOptions`, `fuse.Mount`,
`fs.Init`, `srv.Serve`, `fuse.Unmount`? -/
def Event.isLifecycle : Event → Bool
  | Event.checkOptions => true
  | Event.fuseMount _ _ => true
  | Event.fsInit => true
  | Event.srvServe => true
  | Event.fuseUnmount _ => true
  | _ => false

/-- Is the option a `fuse.MaxReadahead` one? -/
def MountOption.isMaxReadahead : MountOption → Bool
  | MountOption.MaxReadahead _ => true
  | _ => false

/-! ## Option normalisation: `checkOptions` -/

/-- Below `2 ^ 44` MiB the multiplication does not wrap, and `checkOptions`
rejects exactly the sizes above 5120 MiB. -/
theorem checkOptions_error_iff_below_wrap (w m : Nat) (g : Globals) (hm : m < 2 ^ 44) :
    (checkOptions w { g with SegmentSize := m }).2 ≠ none ↔ 5120 < m := by
  have h : m * 2 ^ 20 % 2 ^ 64 = m * 2 ^ 20 := Nat.mod_eq_of_lt (by omega)
  unfold checkOptions
  simp only [h]
  split
  · simp; omega
  · simp; omega

/-- C1 (failing input): a segment size of `2 ^ 44` MiB is a 64-bit unsigned
value above 5120, yet `checkOptions` returns no error: the product wraps to 0
bytes before the comparison with 5 GiB. -/
theorem checkOptions_accepts_wrapped_segment_size :
    (2 : Nat) ^ 44 < 2 ^ 64 ∧ 5120 < (2 : Nat) ^ 44 ∧
    (checkOptions 64 { setFlags with SegmentSize := 2 ^ 44 }).2 = none ∧
    (checkOptions 64 { setFlags with SegmentSize := 2 ^ 44 }).1.SegmentSize = 0 := by
  refine ⟨by norm_num, by norm_num, ?_, ?_⟩ <;> simp [checkOptions, setFlags]

/-- C5: for a segment size of `m` MiB with `m ≤ 5120` and a read-ahead size of
`r` KiB with `r * 2 ^ 10 < 2 ^ 32`, on either width of `uint`, `checkOptions`
returns no error and leaves exactly `m * 2 ^ 20` and `r * 2 ^ 10` bytes, every
other variable unchanged. -/
theorem checkOptions_normalizes (w m r : Nat) (g : Globals) (hw : w = 32 ∨ w = 64)
    (hm : m ≤ 5120) (hr : r * 2 ^ 10 < 2 ^ 32) :
    checkOptions w { g with SegmentSize := m, ReadAheadSize := r } =
      ({ g with SegmentSize := m * 2 ^ 20, ReadAheadSize := r * 2 ^ 10 }, none) := by
  have h1 : m * 2 ^ 20 % 2 ^ 64 = m * 2 ^ 20 := Nat.mod_eq_of_lt (by omega)
  have h2 : r * 2 ^ 10 % 2 ^ w = r * 2 ^ 10 := by
    rcases hw with rfl | rfl <;> exact Nat.mod_eq_of_lt (by omega)
  unfold checkOptions
  simp only [h1, h2]
  rw [if_neg (by omega)]

/-- C5 at the defaults: 256 MiB becomes 268435456 bytes and 128 KiB becomes
131072 bytes, without error. -/
theorem checkOptions_normalizes_witness :
    checkOptions 64 { setFlags with SegmentSize := 256, ReadAheadSize := 128 } =
      ({ setFlags with SegmentSize := 268435456, ReadAheadSize := 131072 }, none) :=
  checkOptions_normalizes 64 256 128 setFlags (Or.inr rfl) (by decide) (by decide)

/-! ## Mount options: `mountOptions` -/

/-- C2: `mountOptions` is the four boolean flags that are set, in the order
AllowOther, AllowRoot, DefaultPermissions, ReadOnly, followed by one
MaxReadahead flag, `Subtype "svfs"` and `FSName d`; each boolean flag is a member
exactly when its setting is true, and the length is 3 plus the number of true
settings. -/
theorem mountOptions_exact (g : Globals) (d : String) :
    mountOptions g d =
        (if g.AllowOther then [MountOption.AllowOther] else []) ++
        (if g.AllowRoot then [MountOption.AllowRoot] else []) ++
        (if g.DefaultPermissions then [MountOption.DefaultPermissions] else []) ++
        (if g.ReadOnly then [MountOption.ReadOnly] else []) ++
        [MountOption.MaxReadahead (g.ReadAheadSize % 2 ^ 32), MountOption.Subtype "svfs",
          MountOption.FSName d] ∧
    (MountOption.AllowOther ∈ mountOptions g d ↔ g.AllowOther = true) ∧
    (MountOption.AllowRoot ∈ mountOptions g d ↔ g.AllowRoot = true) ∧
    (MountOption.DefaultPermissions ∈ mountOptions g d ↔ g.DefaultPermissions = true) ∧
    (MountOption.ReadOnly ∈ mountOptions g d ↔ g.ReadOnly = true) ∧
    (mountOptions g d).length =
      3 + (g.AllowOther.toNat + g.AllowRoot.toNat + g.DefaultPermissions.toNat +
        g.ReadOnly.toNat) ∧
    (MountOption.AllowOther ∈
        mountOptions { g with AllowOther := true, AllowRoot := false, ReadOnly := true } d ∧
      MountOption.ReadOnly ∈
        mountOptions { g with AllowOther := true, AllowRoot := false, ReadOnly := true } d ∧
      MountOption.AllowRoot ∉
        mountOptions { g with AllowOther := true, AllowRoot := false, ReadOnly := true } d) := by
  rcases g with ⟨_, _, _, _, _, _, _, _, _, _, _, _, _, _, _, _, _, _, _, ar, ao, dp, ro⟩
  cases ar <;> cases ao <;> cases dp <;> cases ro <;>
    simp [mountOptions, appendIf]

/-- C6 (counterexample): with a 64-bit `uint`, a read-ahead of 4194304 KiB is
normalised by `checkOptions` to `2 ^ 32` bytes, and the MaxReadahead flag built
from it carries 0, not `2 ^ 32`. -/
theorem mountOptions_readahead_truncated :
    (checkOptions 64 { setFlags with ReadAheadSize := 4194304 }).1.ReadAheadSize = 2 ^ 32 ∧
    (2 : Nat) ^ 32 < 2 ^ 64 ∧
    (mountOptions (checkOptions 64 { setFlags with ReadAheadSize := 4194304 }).1 "svfs").filter
        MountOption.isMaxReadahead = [MountOption.MaxReadahead 0] ∧
    (mountOptions (checkOptions 64 { setFlags with ReadAheadSize := 4194304 }).1 "svfs").filter
        MountOption.isMaxReadahead ≠ [MountOption.MaxReadahead (2 ^ 32)] := by
  refine ⟨?_, by norm_num, ?_, ?_⟩ <;>
    simp [checkOptions, setFlags, mountOptions, appendIf, MountOption.isMaxReadahead]

/-- C6 (amended): the list returned by `mountOptions` contains exactly one
MaxReadahead flag; it carries the read-ahead byte count reduced modulo `2 ^ 32`,
which is the byte count itself exactly when that is below `2 ^ 32`. -/
theorem mountOptions_readahead_mod (g : Globals) (d : String) :
    (mountOptions g d).filter MountOption.isMaxReadahead =
        [MountOption.MaxReadahead (g.ReadAheadSize % 2 ^ 32)] ∧
    ((mountOptions g d).filter MountOption.isMaxReadahead =
        [MountOption.MaxReadahead g.ReadAheadSize] ↔ g.ReadAheadSize < 2 ^ 32) := by
  have h : (mountOptions g d).filter MountOption.isMaxReadahead =
      [MountOption.MaxReadahead (g.ReadAheadSize % 2 ^ 32)] := by
    rcases g with ⟨_, _, _, _, _, _, _, _, _, _, _, _, _, _, _, _, _, _, _, ar, ao, dp, ro⟩
    cases ar <;> cases ao <;> cases dp <;> cases ro <;>
      simp [mountOptions, appendIf, MountOption.isMaxReadahead]
  refine ⟨h, ?_⟩
  rw [h]
  simp only [List.cons.injEq, MountOption.MaxReadahead.injEq, and_true]
  exact Nat.mod_eq_iff_lt (by norm_num)

/-! ## Configuration precedence: `useConfiguration` -/

/-- Without `--profile-bind`, or when the listener does not fail while the
process lives, `Run` is its main goroutine. -/
theorem Run_of_quiet_listener (w : Nat) (env : World) (g : Globals)
    (h : g.profAddr = "" ∨ env.listen = none) : Run w env g = mainGoroutine w env g := by
  unfold Run
  rcases h with h | h
  · simp [h]
  · simp [h]

theorem checkOptions_mountpoint (w : Nat) (g : Globals) :
    (checkOptions w g).1.mountpoint = g.mountpoint := by
  unfold checkOptions; dsimp only; split <;> rfl

theorem checkOptions_memProf (w : Nat) (g : Globals) :
    (checkOptions w g).1.memProf = g.memProf := by
  unfold checkOptions; dsimp only; split <;> rfl

theorem checkOptions_device (w : Nat) (g : Globals) :
    (checkOptions w g).1.device = g.device := by
  unfold checkOptions; dsimp only; split <;> rfl

theorem mainGoroutine_eq (w : Nat) (env : World) (g : Globals) :
    mainGoroutine w env g =
      if g.cpuProf ≠ "" then
        match env.cpuCreate with
        | some err =>
          { trace := startupTrace g ++ [Event.osCreate g.cpuProf, Event.fatal err]
            exit := Exit.fatal err
            globals := useConfiguration env.viper g }
        | none =>
          mountSVFS w env (useConfiguration env.viper g)
            (startupTrace g ++ [Event.osCreate g.cpuProf, Event.startCPUProfile])
            [Event.stopCPUProfile]
      else
        mountSVFS w env (useConfiguration env.viper g) (startupTrace g) [] := by
  have hcpu : (useConfiguration env.viper g).cpuProf = g.cpuProf := rfl
  have hprof : (useConfiguration env.viper g).profAddr = g.profAddr := rfl
  unfold mainGoroutine startupTrace
  simp only [hcpu, hprof]
  cases g.debug <;> cases g.configError <;> by_cases hp : g.profAddr = "" <;> simp [hp]


theorem startupTrace_quiet (g : Globals) (ev : Event) (h : ev ∈ startupTrace g) :
    ev.isLifecycle = false ∧ ev.isUnmount = false ∧ ev.isMount = false ∧
      ev ≠ Event.fsInit ∧ ev ≠ Event.srvServe ∧ ev ≠ Event.stopCPUProfile := by
  unfold startupTrace at h
  simp only [List.mem_append, List.mem_cons, List.mem_singleton, List.not_mem_nil,
    or_false] at h
  rcases h with (((h | h) | h) | h | h) | h
  · split at h <;> simp at h
    subst h; simp [Event.isLifecycle, Event.isUnmount, Event.isMount]
  · subst h; simp [Event.isLifecycle, Event.isUnmount, Event.isMount]
  · split at h <;> simp at h
    subst h; simp [Event.isLifecycle, Event.isUnmount, Event.isMount]
  · subst h; simp [Event.isLifecycle, Event.isUnmount, Event.isMount]
  · subst h; simp [Event.isLifecycle, Event.isUnmount, Event.isMount]
  · split at h <;> simp at h
    subst h; simp [Event.isLifecycle, Event.isUnmount, Event.isMount]

/-- The calls made from CPU profiling up to `checkOptions`, when the profile file
can be created. -/
theorem mainGoroutine_reached (w : Nat) (env : World) (g : Globals)
    (h : g.cpuProf = "" ∨ env.cpuCreate = none) :
    mainGoroutine w env g =
      mountSVFS w env (useConfiguration env.viper g)
        (startupTrace g ++
          if g.cpuProf ≠ "" then [Event.osCreate g.cpuProf, Event.startCPUProfile] else [])
        (if g.cpuProf ≠ "" then [Event.stopCPUProfile] else []) := by
  rw [mainGoroutine_eq]
  by_cases hc : g.cpuProf = ""
  · simp [hc]
  · rcases h with h | h
    · exact absurd h hc
    · simp [hc, h]

theorem mountSVFS_check_error (w : Nat) (env : World) (g : Globals) (t d : List Event)
    (err : Error) (hck : (checkOptions w g).2 = some err) :
    mountSVFS w env g t d =
      { trace := t ++ [Event.checkOptions, Event.fatal err]
        exit := Exit.fatal err
        globals := (checkOptions w g).1 } := by
  simp [mountSVFS, hck]

/-- `fuse.Mount` is called exactly when the CPU profile file, if asked for, could
be created and `checkOptions` returned no error. -/
theorem mainGoroutine_mount_called_iff (w : Nat) (env : World) (g : Globals) :
    (∃ ev ∈ (mainGoroutine w env g).trace, ev.isMount = true) ↔
      (g.cpuProf = "" ∨ env.cpuCreate = none) ∧
        (checkOptions w (useConfiguration env.viper g)).2 = none := by
  constructor
  · rintro ⟨ev, hev, hm⟩
    rw [mainGoroutine_eq] at hev
    by_cases hc : g.cpuProf = ""
    · refine ⟨Or.inl hc, ?_⟩
      cases hck : (checkOptions w (useConfiguration env.viper g)).2 with
      | none => rfl
      | some err =>
        exfalso
        simp only [hc, ne_eq, not_true_eq_false, if_false,
          mountSVFS_check_error w env _ _ _ err hck, List.mem_append, List.mem_cons,
          List.mem_singleton, List.not_mem_nil, or_false] at hev
        rcases hev with hev | hev | hev
        · rw [(startupTrace_quiet g ev hev).2.2.1] at hm; cases hm
        · subst hev; cases hm
        · subst hev; cases hm
    · cases hcc : env.cpuCreate with
      | some err =>
        exfalso
        simp only [hc, ne_eq, not_false_eq_true, if_true, hcc, List.mem_append, List.mem_cons,
          List.mem_singleton, List.not_mem_nil, or_false] at hev
        rcases hev with hev | hev | hev
        · rw [(startupTrace_quiet g ev hev).2.2.1] at hm; cases hm
        · subst hev; cases hm
        · subst hev; cases hm
      | none =>
        refine ⟨Or.inr rfl, ?_⟩
        cases hck : (checkOptions w (useConfiguration env.viper g)).2 with
        | none => rfl
        | some err =>
          exfalso
          simp only [hc, ne_eq, not_false_eq_true, if_true, hcc,
            mountSVFS_check_error w env _ _ _ err hck, List.mem_append, List.mem_cons,
            List.mem_singleton, List.not_mem_nil, or_false] at hev
          rcases hev with (hev | hev | hev) | hev | hev
          · rw [(startupTrace_quiet g ev hev).2.2.1] at hm; cases hm
          · subst hev; cases hm
          · subst hev; cases hm
          · subst hev; cases hm
          · subst hev; cases hm
  · rintro ⟨hcpu, hck⟩
    rw [mainGoroutine_reached w env g hcpu]
    refine ⟨Event.fuseMount g.mountpoint
      (mountOptions (checkOptions w (useConfiguration env.viper g)).1 g.device), ?_, rfl⟩
    have hmp : (useConfiguration env.viper g).mountpoint = g.mountpoint := rfl
    have hdev : (useConfiguration env.viper g).device = g.device := rfl
    simp only [mountSVFS, hck, checkOptions_mountpoint, checkOptions_device, hmp, hdev,
      errLabel, checkMountError]
    cases env.mount <;> cases env.init <;> cases env.serve <;> cases env.memCreate <;>
      cases env.mountError <;> by_cases hmem : (checkOptions w (useConfiguration env.viper g)).1.memProf = "" <;>
      simp [hmem]


theorem preMount_quiet (g : Globals) (ev : Event)
    (h : ev ∈ startupTrace g ++
      if g.cpuProf ≠ "" then [Event.osCreate g.cpuProf, Event.startCPUProfile] else []) :
    ev.isLifecycle = false ∧ ev.isUnmount = false ∧ ev.isMount = false ∧
      ev ≠ Event.fsInit ∧ ev ≠ Event.srvServe ∧ ev ≠ Event.stopCPUProfile := by
  rcases List.mem_append.1 h with h | h
  · exact startupTrace_quiet g ev h
  · split at h <;> simp at h
    rcases h with h | h <;> subst h <;> simp [Event.isLifecycle, Event.isUnmount, Event.isMount]

theorem preMount_filter_unmount (g : Globals) :
    (startupTrace g ++
      if g.cpuProf ≠ "" then [Event.osCreate g.cpuProf, Event.startCPUProfile] else []).filter
        Event.isUnmount = [] := by
  rw [List.filter_eq_nil_iff]
  intro ev hev
  simp [(preMount_quiet g ev hev).2.1]

/-- C7 (counterexample): `fuse.Mount` fails with "busy"; the run still calls
`fuse.Unmount` on the mountpoint before the fatal exit. -/
theorem Run_mount_error_calls_unmount :
    (quietWorld.mount = none ∧
      ({ quietWorld with mount := some "busy" } : World).mount = some "busy") ∧
    (Run 64 { quietWorld with mount := some "busy" }
        { setFlags with device := "svfs", mountpoint := "/mnt" }).trace =
      [Event.setMountTime, Event.markRequired "device", Event.markRequired "mountpoint",
        Event.checkOptions,
        Event.fuseMount "/mnt"
          [MountOption.AllowOther, MountOption.DefaultPermissions,
            MountOption.MaxReadahead 131072, MountOption.Subtype "svfs",
            MountOption.FSName "svfs"],
        Event.fuseUnmount "/mnt", Event.fatal "busy"] ∧
    Event.fuseUnmount "/mnt" ∈
      (Run 64 { quietWorld with mount := some "busy" }
        { setFlags with device := "svfs", mountpoint := "/mnt" }).trace := by
  refine ⟨⟨rfl, rfl⟩, ?_, ?_⟩ <;> decide

/-- C7 (amended): in a run that the `--profile-bind` listener does not end (no
address given, or `http.ListenAndServe` does not fail while the process lives),
when `fuse.Mount` is called and returns an error, the run calls neither `fs.Init`
nor `srv.Serve`, makes exactly one `fuse.Unmount` call, on the mountpoint and
right after `fuse.Mount`, and then ends fatally with the error of `fuse.Mount`. -/
theorem Run_mount_error_unmounts (w : Nat) (env : World) (g : Globals) (e : Error)
    (hlisten : g.profAddr = "" ∨ env.listen = none)
    (hcall : ∃ ev ∈ (Run w env g).trace, ev.isMount = true) (hmount : env.mount = some e) :
    (∃ pre options,
      (Run w env g).trace =
        pre ++ [Event.fuseMount g.mountpoint options, Event.fuseUnmount g.mountpoint,
          Event.fatal e] ∧ ∀ ev ∈ pre, ev.isUnmount = false ∧ ev.isMount = false) ∧
    (Run w env g).trace.filter Event.isUnmount = [Event.fuseUnmount g.mountpoint] ∧
    Event.fsInit ∉ (Run w env g).trace ∧ Event.srvServe ∉ (Run w env g).trace ∧
    (Run w env g).exit = Exit.fatal e := by
  rw [Run_of_quiet_listener w env g hlisten] at hcall ⊢
  obtain ⟨hcpu, hck⟩ := (mainGoroutine_mount_called_iff w env g).1 hcall
  have hmp : (useConfiguration env.viper g).mountpoint = g.mountpoint := rfl
  have hrun : mainGoroutine w env g =
      { trace := (startupTrace g ++
            if g.cpuProf ≠ "" then [Event.osCreate g.cpuProf, Event.startCPUProfile] else []) ++
          [Event.checkOptions] ++
          [Event.fuseMount g.mountpoint
              (mountOptions (checkOptions w (useConfiguration env.viper g)).1
                (checkOptions w (useConfiguration env.viper g)).1.device),
            Event.fuseUnmount g.mountpoint, Event.fatal e]
        exit := Exit.fatal e
        globals := (checkOptions w (useConfiguration env.viper g)).1 } := by
    rw [mainGoroutine_reached w env g hcpu]
    simp [mountSVFS, hck, hmount, errLabel, checkOptions_mountpoint, hmp]
  have hq := preMount_quiet g
  have hf := preMount_filter_unmount g
  rw [hrun]
  refine ⟨⟨_, _, rfl, ?_⟩, ?_, ?_, ?_, rfl⟩
  · intro ev hev
    rcases List.mem_append.1 hev with hev | hev
    · exact ⟨(hq ev hev).2.1, (hq ev hev).2.2.1⟩
    · simp at hev; subst hev; exact ⟨rfl, rfl⟩
  · simp only [List.filter_append, hf]
    simp [Event.isUnmount]
  · intro hmem
    simp only [List.mem_append, List.mem_cons, List.mem_singleton, List.not_mem_nil,
      or_false, reduceCtorEq] at hmem
    exact (hq _ (List.mem_append.2 hmem)).2.2.2.1 rfl
  · intro hmem
    simp only [List.mem_append, List.mem_cons, List.mem_singleton, List.not_mem_nil,
      or_false, reduceCtorEq] at hmem
    exact (hq _ (List.mem_append.2 hmem)).2.2.2.2.1 rfl

/-- C7 (amended) on a run whose `fuse.Mount` fails with "busy". -/
theorem Run_mount_error_unmounts_witness :
    (Run 64 { quietWorld with mount := some "busy" }
        { setFlags with device := "svfs", mountpoint := "/mnt" }).trace.filter Event.isUnmount =
      [Event.fuseUnmount "/mnt"] ∧
    (Run 64 { quietWorld with mount := some "busy" }
        { setFlags with device := "svfs", mountpoint := "/mnt" }).exit = Exit.fatal "busy" :=
  have h := Run_mount_error_unmounts 64 { quietWorld with mount := some "busy" }
    { setFlags with device := "svfs", mountpoint := "/mnt" } "busy" (Or.inl rfl)
    ⟨Event.fuseMount "/mnt"
        [MountOption.AllowOther, MountOption.DefaultPermissions,
          MountOption.MaxReadahead 131072, MountOption.Subtype "svfs",
          MountOption.FSName "svfs"], by decide, rfl⟩ rfl
  ⟨h.2.1, h.2.2.2.2⟩


theorem mountSVFS_failure (w : Nat) (env : World) (g : Globals) (t d : List Event)
    (e : Error) (hck : (checkOptions w g).2 = none) (hmount : env.mount = none)
    (hfail : env.init = some e ∨ (env.init = none ∧ env.serve = some e) ∨
      (env.init = none ∧ env.serve = none ∧ env.mountError = some e ∧
        (g.memProf = "" ∨ env.memCreate = none))) :
    ∃ mid, (∀ ev ∈ mid, ev.isUnmount = false) ∧
      mountSVFS w env g t d =
        { trace := t ++ mid ++ [Event.fuseUnmount g.mountpoint, Event.fatal e]
          exit := Exit.fatal e
          globals := (checkOptions w g).1 } := by
  rcases hfail with h | ⟨h1, h2⟩ | ⟨h1, h2, h3, h4⟩
  · refine ⟨[Event.checkOptions,
      Event.fuseMount g.mountpoint (mountOptions (checkOptions w g).1 g.device),
      Event.fsInit], ?_, ?_⟩
    · intro ev hev
      simp at hev
      rcases hev with rfl | rfl | rfl <;> rfl
    · simp [mountSVFS, hck, hmount, h, errLabel, checkOptions_mountpoint, checkOptions_device]
  · refine ⟨[Event.checkOptions,
      Event.fuseMount g.mountpoint (mountOptions (checkOptions w g).1 g.device),
      Event.fsInit, Event.srvServe], ?_, ?_⟩
    · intro ev hev
      simp at hev
      rcases hev with rfl | rfl | rfl | rfl <;> rfl
    · simp [mountSVFS, hck, hmount, h1, h2, errLabel, checkOptions_mountpoint,
        checkOptions_device]
  · by_cases hmem : g.memProf = ""
    · refine ⟨[Event.checkOptions,
        Event.fuseMount g.mountpoint (mountOptions (checkOptions w g).1 g.device),
        Event.fsInit, Event.srvServe, Event.connReady], ?_, ?_⟩
      · intro ev hev
        simp at hev
        rcases hev with rfl | rfl | rfl | rfl | rfl <;> rfl
      · simp [mountSVFS, hck, hmount, h1, h2, h3, hmem, errLabel, checkMountError,
          checkOptions_mountpoint, checkOptions_device, checkOptions_memProf]
    · have h4 : env.memCreate = none := h4.resolve_left hmem
      refine ⟨[Event.checkOptions,
        Event.fuseMount g.mountpoint (mountOptions (checkOptions w g).1 g.device),
        Event.fsInit, Event.srvServe, Event.connReady, Event.osCreate g.memProf,
        Event.writeHeapProfile, Event.fileClose], ?_, ?_⟩
      · intro ev hev
        simp at hev
        rcases hev with rfl | rfl | rfl | rfl | rfl | rfl | rfl | rfl <;> rfl
      · simp [mountSVFS, hck, hmount, h1, h2, h3, h4, hmem, errLabel, checkMountError,
          checkOptions_mountpoint, checkOptions_device, checkOptions_memProf]

/-- C3 (counterexample): `fuse.Mount`, `fs.Init` and `srv.Serve` succeed and
`c.MountError` is non-nil after the readiness signal, but the heap profile file
cannot be created: `createMemProf` ends the process before `c.MountError` is
looked at, and `fuse.Unmount` is never called. -/
theorem Run_heap_profile_failure_skips_unmount :
    (Run 64 { quietWorld with memCreate := some "permission denied",
                              mountError := some "mount failed" }
        { setFlags with device := "svfs", mountpoint := "/mnt", memProf := "mem.prof" }).trace =
      [Event.setMountTime, Event.markRequired "device", Event.markRequired "mountpoint",
        Event.checkOptions,
        Event.fuseMount "/mnt"
          [MountOption.AllowOther, MountOption.DefaultPermissions,
            MountOption.MaxReadahead 131072, MountOption.Subtype "svfs",
            MountOption.FSName "svfs"],
        Event.fsInit, Event.srvServe, Event.connReady, Event.osCreate "mem.prof",
        Event.fatal "permission denied"] ∧
    (Run 64 { quietWorld with memCreate := some "permission denied",
                              mountError := some "mount failed" }
        { setFlags with device := "svfs", mountpoint := "/mnt",
                        memProf := "mem.prof" }).trace.filter Event.isUnmount = [] ∧
    (Run 64 { quietWorld with memCreate := some "permission denied",
                              mountError := some "mount failed" }
        { setFlags with device := "svfs", mountpoint := "/mnt", memProf := "mem.prof" }).exit =
      Exit.fatal "permission denied" := by
  refine ⟨?_, ?_, ?_⟩ <;> decide

/-- C3 (amended): in a run that the `--profile-bind` listener does not end (no
address given, or `http.ListenAndServe` does not fail while the process lives),
when `fuse.Mount` is called and succeeds, and `fs.Init` fails, or `srv.Serve`
fails, or `c.MountError` is non-nil after the readiness signal while
`createMemProf` did not end the process (no heap profile asked for, or its file
was created), the run makes exactly one `fuse.Unmount` call, on the mountpoint,
and then ends fatally with the error of the first stage that failed, whatever
`fuse.Unmount` returns. -/
theorem Run_failure_after_mount_unmounts_once (w : Nat) (env : World) (g : Globals)
    (e : Error) (hlisten : g.profAddr = "" ∨ env.listen = none)
    (hcall : ∃ ev ∈ (Run w env g).trace, ev.isMount = true)
    (hmount : env.mount = none)
    (hfail : env.init = some e ∨ (env.init = none ∧ env.serve = some e) ∨
      (env.init = none ∧ env.serve = none ∧ env.mountError = some e ∧
        (g.memProf = "" ∨ env.memCreate = none))) :
    (∃ pre, (Run w env g).trace = pre ++ [Event.fuseUnmount g.mountpoint, Event.fatal e] ∧
      ∀ ev ∈ pre, ev.isUnmount = false) ∧
    (Run w env g).trace.filter Event.isUnmount = [Event.fuseUnmount g.mountpoint] ∧
    (Run w env g).exit = Exit.fatal e ∧
    ∀ u, Run w { env with unmount := u } g = Run w env g := by
  have hu : ∀ u, Run w { env with unmount := u } g = Run w env g := fun _ => rfl
  rw [Run_of_quiet_listener w env g hlisten] at hcall ⊢
  obtain ⟨hcpu, hck⟩ := (mainGoroutine_mount_called_iff w env g).1 hcall
  have hmp : (useConfiguration env.viper g).mountpoint = g.mountpoint := rfl
  have hmemp : (useConfiguration env.viper g).memProf = g.memProf := rfl
  obtain ⟨mid, hmid, hrun⟩ := mountSVFS_failure w env (useConfiguration env.viper g)
    (startupTrace g ++
      if g.cpuProf ≠ "" then [Event.osCreate g.cpuProf, Event.startCPUProfile] else [])
    (if g.cpuProf ≠ "" then [Event.stopCPUProfile] else []) e hck hmount
    (by rw [hmemp]; exact hfail)
  rw [← mainGoroutine_reached w env g hcpu, hmp] at hrun
  have hq := preMount_quiet g
  have hpre : ∀ ev ∈ (startupTrace g ++
      if g.cpuProf ≠ "" then [Event.osCreate g.cpuProf, Event.startCPUProfile] else []) ++ mid,
      ev.isUnmount = false := by
    intro ev hev
    rcases List.mem_append.1 hev with hev | hev
    · exact (hq ev hev).2.1
    · exact hmid ev hev
  have hfilter : ((startupTrace g ++
      if g.cpuProf ≠ "" then [Event.osCreate g.cpuProf, Event.startCPUProfile] else []) ++
        mid).filter Event.isUnmount = [] := by
    rw [List.filter_eq_nil_iff]
    intro ev hev
    simp [hpre ev hev]
  refine ⟨⟨_, by rw [hrun], hpre⟩, ?_, by rw [hrun], fun u => ?_⟩
  swap
  · rw [← Run_of_quiet_listener w env g hlisten]; exact hu u
  rw [hrun]
  simp only [List.filter_append, hfilter]
  simp [Event.isUnmount]

/-- C3 (amended) on a run with `--profile-bind localhost:6060` whose listener
stays up, whose `fs.Init` fails after a successful `fuse.Mount`, and whose
`fuse.Unmount` fails too. -/
theorem Run_failure_after_mount_unmounts_once_witness :
    (Run 64 { quietWorld with init := some "authentication failed",
                              unmount := some "not mounted" }
        { setFlags with device := "svfs", mountpoint := "/mnt",
                        profAddr := "localhost:6060" }).trace.filter Event.isUnmount =
      [Event.fuseUnmount "/mnt"] ∧
    (Run 64 { quietWorld with init := some "authentication failed",
                              unmount := some "not mounted" }
        { setFlags with device := "svfs", mountpoint := "/mnt",
                        profAddr := "localhost:6060" }).exit =
      Exit.fatal "authentication failed" :=
  have h := Run_failure_after_mount_unmounts_once 64
    { quietWorld with init := some "authentication failed", unmount := some "not mounted" }
    { setFlags with device := "svfs", mountpoint := "/mnt", profAddr := "localhost:6060" }
    "authentication failed" (Or.inr rfl)
    ⟨Event.fuseMount "/mnt"
        [MountOption.AllowOther, MountOption.DefaultPermissions,
          MountOption.MaxReadahead 131072, MountOption.Subtype "svfs",
          MountOption.FSName "svfs"], by decide, rfl⟩ rfl (Or.inl rfl)
  ⟨h.2.1, h.2.2.1⟩

/-- Why the listener is named in the two statements above: with
`--profile-bind localhost:6060`, when `http.ListenAndServe` fails right after
`fs.Init` has failed, or right after `fuse.Mount` has failed, the process ends
with the listener's error and `fuse.Unmount` is not called. -/
theorem Run_listener_failure_skips_unmount :
    (Run 64 { quietWorld with init := some "authentication failed",
                              listen := some (3, "address already in use") }
        { setFlags with device := "svfs", mountpoint := "/mnt",
                        profAddr := "localhost:6060" }).trace =
      [Event.setMountTime, Event.markRequired "device", Event.markRequired "mountpoint",
        Event.goListenAndServe "localhost:6060", Event.checkOptions,
        Event.fuseMount "/mnt"
          [MountOption.AllowOther, MountOption.DefaultPermissions,
            MountOption.MaxReadahead 131072, MountOption.Subtype "svfs",
            MountOption.FSName "svfs"],
        Event.fsInit, Event.fatal "address already in use"] ∧
    (Run 64 { quietWorld with mount := some "busy",
                              listen := some (2, "address already in use") }
        { setFlags with device := "svfs", mountpoint := "/mnt",
                        profAddr := "localhost:6060" }).trace =
      [Event.setMountTime, Event.markRequired "device", Event.markRequired "mountpoint",
        Event.goListenAndServe "localhost:6060", Event.checkOptions,
        Event.fuseMount "/mnt"
          [MountOption.AllowOther, MountOption.DefaultPermissions,
            MountOption.MaxReadahead 131072, MountOption.Subtype "svfs",
            MountOption.FSName "svfs"],
        Event.fatal "address already in use"] := by
  refine ⟨?_, ?_⟩ <;> decide

/-- C4 (failing input): with no `--device` (the empty default) and
`--mountpoint /mnt`, `Run` only marks the two flags as required, performs no
check of its own, and goes on to call `fuse.Mount` with `FSName ""`; the run
returns without any error. -/
theorem Run_empty_device_calls_mount :
    ({ setFlags with mountpoint := "/mnt" } : Globals).device = "" ∧
    ({ setFlags with mountpoint := "/mnt" } : Globals).mountpoint ≠ "" ∧
    (Run 64 quietWorld { setFlags with mountpoint := "/mnt" }).trace =
      [Event.setMountTime, Event.markRequired "device", Event.markRequired "mountpoint",
        Event.checkOptions,
        Event.fuseMount "/mnt"
          [MountOption.AllowOther, MountOption.DefaultPermissions,
            MountOption.MaxReadahead 131072, MountOption.Subtype "svfs",
            MountOption.FSName ""],
        Event.fsInit, Event.srvServe, Event.connReady, Event.connClose] ∧
    (Run 64 quietWorld { setFlags with mountpoint := "/mnt" }).exit = Exit.returned := by
  refine ⟨rfl, ?_, ?_, ?_⟩ <;> decide

/-- Whether the main goroutine calls `fuse.Mount` does not depend on the device
name. -/
theorem mainGoroutine_mount_called_any_device (w : Nat) (env : World) (g : Globals) (d : String) :
    (∃ ev ∈ (mainGoroutine w env { g with device := d }).trace, ev.isMount = true) ↔
      ∃ ev ∈ (mainGoroutine w env g).trace, ev.isMount = true := by
  have h : (checkOptions w (useConfiguration env.viper { g with device := d })).2 =
      (checkOptions w (useConfiguration env.viper g)).2 := by
    unfold checkOptions; dsimp only; split <;> rename_i h1 <;> split <;> rename_i h2 <;>
      first | rfl | exact absurd h1 h2 | exact absurd h2 h1
  rw [mainGoroutine_mount_called_iff, mainGoroutine_mount_called_iff, h]

/-- In a run that the listener does not end, whether `fuse.Mount` is called does
not depend on the device name. -/
theorem Run_mount_called_any_device (w : Nat) (env : World) (g : Globals) (d : String)
    (hlisten : g.profAddr = "" ∨ env.listen = none) :
    (∃ ev ∈ (Run w env { g with device := d }).trace, ev.isMount = true) ↔
      ∃ ev ∈ (Run w env g).trace, ev.isMount = true := by
  rw [Run_of_quiet_listener w env g hlisten,
    Run_of_quiet_listener w env { g with device := d } hlisten]
  exact mainGoroutine_mount_called_any_device w env g d

/-- C8 (failing input): with `--profile-cpu cpu.prof`, profiling is started; when
`fs.Init` then fails, the run ends in `logrus.Fatal` and `pprof.StopCPUProfile`
is not invoked at all, whereas the run in which every stage succeeds invokes it
once, on return. -/
theorem Run_fatal_skips_StopCPUProfile :
    Event.startCPUProfile ∈
      (Run 64 { quietWorld with init := some "authentication failed" }
        { setFlags with device := "svfs", mountpoint := "/mnt", cpuProf := "cpu.prof" }).trace ∧
    (Run 64 { quietWorld with init := some "authentication failed" }
        { setFlags with device := "svfs", mountpoint := "/mnt", cpuProf := "cpu.prof" }).trace.count
      Event.stopCPUProfile = 0 ∧
    (Run 64 { quietWorld with init := some "authentication failed" }
        { setFlags with device := "svfs", mountpoint := "/mnt", cpuProf := "cpu.prof" }).exit =
      Exit.fatal "authentication failed" ∧
    (Run 64 quietWorld
        { setFlags with device := "svfs", mountpoint := "/mnt", cpuProf := "cpu.prof" }).trace.count
      Event.stopCPUProfile = 1 ∧
    (Run 64 quietWorld
        { setFlags with device := "svfs", mountpoint := "/mnt", cpuProf := "cpu.prof" }).exit =
      Exit.returned := by
  refine ⟨?_, ?_, ?_, ?_, ?_⟩ <;> decide


theorem checkOptions_configError (w : Nat) (g : Globals) (c : Option Error) :
    checkOptions w { g with configError := c } =
      ({ (checkOptions w g).1 with configError := c }, (checkOptions w g).2) := by
  unfold checkOptions; dsimp only; split <;> rfl

theorem mountSVFS_trace_append (w : Nat) (env : World) (g : Globals) (t d : List Event) :
    (mountSVFS w env g t d).trace = t ++ (mountSVFS w env g [] d).trace ∧
      (mountSVFS w env g t d).exit = (mountSVFS w env g [] d).exit := by
  simp only [mountSVFS, errLabel, checkMountError]
  generalize checkOptions w g = r
  rcases r with ⟨g1, r⟩
  cases r <;> cases env.mount <;> cases env.init <;> cases env.serve <;>
    cases env.memCreate <;> cases env.mountError <;>
    by_cases hmem : g1.memProf = "" <;> simp [hmem]

theorem mountSVFS_configError (w : Nat) (env : World) (g : Globals) (c : Option Error)
    (t d : List Event) :
    (mountSVFS w env { g with configError := c } t d).trace = (mountSVFS w env g t d).trace ∧
      (mountSVFS w env { g with configError := c } t d).exit = (mountSVFS w env g t d).exit := by
  have hmo : ∀ x : Globals, mountOptions { x with configError := c } x.device =
      mountOptions x x.device := fun _ => rfl
  simp only [mountSVFS, errLabel, checkMountError, checkOptions_configError, hmo]
  generalize checkOptions w g = r
  rcases r with ⟨g1, r⟩
  cases r <;> cases env.mount <;> cases env.init <;> cases env.serve <;>
    cases env.memCreate <;> cases env.mountError <;>
    by_cases hmem : g1.memProf = "" <;> simp [hmem]

/-- The calls `Run` makes after the startup calls, and how it ends, do not depend
on the configuration load error. -/
theorem mainGoroutine_after_startup (w : Nat) (env : World) (g : Globals) :
    ∃ rest, ∀ c : Option Error,
      (mainGoroutine w env { g with configError := c }).trace =
          startupTrace { g with configError := c } ++ rest ∧
        (mainGoroutine w env { g with configError := c }).exit = (mainGoroutine w env g).exit := by
  have huc : ∀ c : Option Error, useConfiguration env.viper { g with configError := c } =
      { useConfiguration env.viper g with configError := c } := fun _ => rfl
  by_cases hc : g.cpuProf = ""
  · refine ⟨(mountSVFS w env (useConfiguration env.viper g) [] []).trace, fun c => ?_⟩
    have hc1 : ¬ ({ g with configError := c } : Globals).cpuProf ≠ "" := not_not.2 hc
    have hc2 : ¬ g.cpuProf ≠ "" := not_not.2 hc
    rw [mainGoroutine_eq, mainGoroutine_eq w env g, if_neg hc1, if_neg hc2, huc c,
      (mountSVFS_trace_append _ _ _ _ _).1, (mountSVFS_trace_append _ _ _ _ _).2,
      (mountSVFS_configError _ _ _ _ _ _).1, (mountSVFS_configError _ _ _ _ _ _).2,
      (mountSVFS_trace_append w env (useConfiguration env.viper g) (startupTrace g) _).2]
    exact ⟨rfl, rfl⟩
  · have hc2 : g.cpuProf ≠ "" := hc
    cases hcc : env.cpuCreate with
    | some err =>
      refine ⟨[Event.osCreate g.cpuProf, Event.fatal err], fun c => ?_⟩
      have hc1 : ({ g with configError := c } : Globals).cpuProf ≠ "" := hc
      rw [mainGoroutine_eq, mainGoroutine_eq w env g, if_pos hc1, if_pos hc2, hcc]
      exact ⟨rfl, rfl⟩
    | none =>
      refine ⟨[Event.osCreate g.cpuProf, Event.startCPUProfile] ++
        (mountSVFS w env (useConfiguration env.viper g) [] [Event.stopCPUProfile]).trace,
        fun c => ?_⟩
      have hc1 : ({ g with configError := c } : Globals).cpuProf ≠ "" := hc
      rw [mainGoroutine_eq, mainGoroutine_eq w env g, if_pos hc1, if_pos hc2, hcc, huc c,
        (mountSVFS_trace_append _ _ _ _ _).1, (mountSVFS_trace_append _ _ _ _ _).2,
        (mountSVFS_configError _ _ _ _ _ _).1, (mountSVFS_configError _ _ _ _ _ _).2,
        (mountSVFS_trace_append w env (useConfiguration env.viper g)
          (startupTrace g ++ _) _).2]
      exact ⟨by simp only [List.append_assoc], rfl⟩

/-- The same for `Run`, listener included: the point at which a failing listener
ends the process is counted from the call that starts it, after the startup calls. -/
theorem Run_after_startup (w : Nat) (env : World) (g : Globals) :
    ∃ rest x, ∀ c : Option Error,
      (Run w env { g with configError := c }).trace =
          startupTrace { g with configError := c } ++ rest ∧
        (Run w env { g with configError := c }).exit = x := by
  obtain ⟨rest, hrest⟩ := mainGoroutine_after_startup w env g
  by_cases hp : g.profAddr = ""
  · refine ⟨rest, (mainGoroutine w env g).exit, fun c => ?_⟩
    rw [Run_of_quiet_listener w env { g with configError := c } (Or.inl hp)]
    exact hrest c
  · cases hl : env.listen with
    | none =>
      refine ⟨rest, (mainGoroutine w env g).exit, fun c => ?_⟩
      rw [Run_of_quiet_listener w env { g with configError := c } (Or.inr hl)]
      exact hrest c
    | some p =>
      obtain ⟨n, err⟩ := p
      have hp1 : ∀ c : Option Error, ({ g with configError := c } : Globals).profAddr ≠ "" :=
        fun _ => hp
      by_cases hk : n < rest.length +
          (match (mainGoroutine w env g).exit with
            | Exit.returned => 1
            | Exit.fatal _ => 0)
      · refine ⟨rest.take n ++ [Event.fatal err], Exit.fatal err, fun c => ?_⟩
        have hlt : (startupTrace { g with configError := c }).length + n <
            (mainGoroutine w env { g with configError := c }).points := by
          unfold Outcome.points
          rw [(hrest c).1, (hrest c).2, List.length_append]
          cases hx : (mainGoroutine w env g).exit <;> rw [hx] at hk <;> simp at hk ⊢ <;> omega
        unfold Run
        simp only [if_pos (hp1 c), hl, if_pos hlt]
        refine ⟨?_, trivial⟩
        rw [(hrest c).1, List.take_append, List.append_assoc]
      · refine ⟨rest, (mainGoroutine w env g).exit, fun c => ?_⟩
        have hlt : ¬ (startupTrace { g with configError := c }).length + n <
            (mainGoroutine w env { g with configError := c }).points := by
          unfold Outcome.points
          rw [(hrest c).1, (hrest c).2, List.length_append]
          cases hx : (mainGoroutine w env g).exit <;> rw [hx] at hk <;> simp at hk ⊢ <;> omega
        unfold Run
        simp only [if_pos (hp1 c), hl, if_neg hlt]
        exact hrest c

/-- C10: a run with a configuration load error and the run without it, all else
equal, end the same way and make the same calls in the same order, but for the
one line logged about the error: the lifecycle calls (`checkOptions`,
`fuse.Mount`, `fs.Init`, `srv.Serve`, `fuse.Unmount`) are the same sequence. -/
theorem Run_configError_only_logged (w : Nat) (env : World) (g : Globals) (e : Error) :
    (Run w env { g with configError := some e }).exit =
      (Run w env { g with configError := none }).exit ∧
    (Run w env { g with configError := some e }).trace.filter Event.isLifecycle =
      (Run w env { g with configError := none }).trace.filter Event.isLifecycle ∧
    ∃ pre post,
      (Run w env { g with configError := none }).trace = pre ++ post ∧
      (Run w env { g with configError := some e }).trace =
        pre ++ Event.skipConfiguration e :: post := by
  obtain ⟨rest, x, hrest⟩ := Run_after_startup w env g
  have h0 := hrest none
  have h1 := hrest (some e)
  have hs0 : startupTrace { g with configError := none } =
      ((if g.debug then [Event.setDebug] else []) ++ [Event.setMountTime]) ++
        ([Event.markRequired "device", Event.markRequired "mountpoint"] ++
          (if g.profAddr ≠ "" then [Event.goListenAndServe g.profAddr] else [])) := by
    simp [startupTrace]
  have hs1 : startupTrace { g with configError := some e } =
      ((if g.debug then [Event.setDebug] else []) ++ [Event.setMountTime]) ++
        Event.skipConfiguration e ::
          ([Event.markRequired "device", Event.markRequired "mountpoint"] ++
            (if g.profAddr ≠ "" then [Event.goListenAndServe g.profAddr] else [])) := by
    simp [startupTrace]
  have hsplit : ∃ pre post,
      (Run w env { g with configError := none }).trace = pre ++ post ∧
      (Run w env { g with configError := some e }).trace =
        pre ++ Event.skipConfiguration e :: post :=
    ⟨(if g.debug then [Event.setDebug] else []) ++ [Event.setMountTime],
      ([Event.markRequired "device", Event.markRequired "mountpoint"] ++
        (if g.profAddr ≠ "" then [Event.goListenAndServe g.profAddr] else [])) ++ rest,
      by rw [h0.1, hs0, List.append_assoc],
      by rw [h1.1, hs1, List.append_assoc, List.cons_append]⟩
  refine ⟨by rw [h0.2, h1.2], ?_, hsplit⟩
  obtain ⟨pre, post, hp0, hp1⟩ := hsplit
  rw [hp0, hp1]
  simp [List.filter_append, List.filter_cons, Event.isLifecycle]


/-- Once CPU profiling is started, the main goroutine invokes
`pprof.StopCPUProfile` once when it returns and not at all when it ends in
`logrus.Fatal`. -/
theorem mainGoroutine_StopCPUProfile_count (w : Nat) (env : World) (g : Globals)
    (hcpu : g.cpuProf ≠ "") (hcc : env.cpuCreate = none) :
    (mainGoroutine w env g).trace.count Event.stopCPUProfile =
      if (mainGoroutine w env g).exit = Exit.returned then 1 else 0 := by
  have hq := preMount_quiet g
  have hT : (startupTrace g ++
      if g.cpuProf ≠ "" then [Event.osCreate g.cpuProf, Event.startCPUProfile] else []).count
        Event.stopCPUProfile = 0 := by
    rw [List.count_eq_zero]
    intro hmem
    exact (hq _ hmem).2.2.2.2.2 rfl
  rw [mainGoroutine_reached w env g (Or.inr hcc), (mountSVFS_trace_append _ _ _ _ _).1,
    (mountSVFS_trace_append _ _ _ _ _).2, List.count_append, hT, if_pos hcpu]
  simp only [mountSVFS, errLabel, checkMountError]
  generalize checkOptions w (useConfiguration env.viper g) = r
  rcases r with ⟨g1, r⟩
  cases r <;> cases env.mount <;> cases env.init <;> cases env.serve <;>
    cases env.memCreate <;> cases env.mountError <;>
    by_cases hmem : g1.memProf = "" <;> simp [hmem, List.count_cons]

/-- In a run that the listener does not end, once CPU profiling is started,
`pprof.StopCPUProfile` is invoked once when `Run` returns and not at all when the
run ends in `logrus.Fatal`. -/
theorem Run_StopCPUProfile_count (w : Nat) (env : World) (g : Globals)
    (hlisten : g.profAddr = "" ∨ env.listen = none)
    (hcpu : g.cpuProf ≠ "") (hcc : env.cpuCreate = none) :
    (Run w env g).trace.count Event.stopCPUProfile =
      if (Run w env g).exit = Exit.returned then 1 else 0 := by
  rw [Run_of_quiet_listener w env g hlisten]
  exact mainGoroutine_StopCPUProfile_count w env g hcpu hcc

end Svfs
